import Mathlib

/-!
# Verification of the TrackExp core (expense_manager.py, auth_security.py)

Shallow embedding of the expense-tracker core. Conventions:

* Monetary amounts are Python floats carrying decimal currency values; per the
  spec's numeric semantics ("all amounts are decimal currency values ... keep
  full precision internally") they are modelled as exact rationals `ℚ`.
* A Python dict record is modelled as a structure; a field that may be absent
  from the dict or hold `None` is an `Option`.
* `datetime.strptime(s, "%Y-%m-%d")` is modelled by `strptimeYMD`, reproducing
  CPython's `_strptime` regexes for `%Y` (exactly four digits), `%m`
  (`1[0-2]|0[1-9]|[1-9]`), `%d` (`3[01]|[12]\d|0[1-9]|[1-9]| [1-9]`), and the
  `datetime` constructor's range validation (year ≥ 1, day within the month,
  Gregorian leap years).  A failed parse is `none` (a raised `ValueError`).
-/

/-- A calendar date as produced by a successful `datetime.strptime` parse. -/
structure Date where
  year : Nat
  month : Nat
  day : Nat
deriving DecidableEq, Repr

/-- Split a character list at every `'-'` (the separators of `%Y-%m-%d`). -/
def splitOnDash : List Char → List (List Char)
  | [] => [[]]
  | c :: cs =>
    let r := splitOnDash cs
    if c = '-' then [] :: r
    else (c :: r.headD []) :: r.tail

/-- The value of a nonempty all-digit character run, else `none`. -/
def digitsToNat? (cs : List Char) : Option Nat :=
  if cs ≠ [] ∧ cs.all Char.isDigit then
    some (cs.foldl (fun acc c => 10 * acc + (c.toNat - 48)) 0)
  else none

/-- `%Y`: exactly four digits. -/
def parseAnno? (cs : List Char) : Option Nat :=
  if cs.length = 4 then digitsToNat? cs else none

/-- `%m`: one or two digits with value 1..12 (regex `1[0-2]|0[1-9]|[1-9]`). -/
def parseMese? (cs : List Char) : Option Nat :=
  match digitsToNat? cs with
  | some m => if cs.length ≤ 2 ∧ 1 ≤ m ∧ m ≤ 12 then some m else none
  | none => none

/-- `%d`: regex `3[01]|[12]\d|0[1-9]|[1-9]| [1-9]` (value range 1..31;
the month-dependent bound is checked by the `datetime` constructor). -/
def parseGiorno? (cs : List Char) : Option Nat :=
  match cs with
  | [' ', c] => if c.isDigit ∧ c ≠ '0' then some (c.toNat - 48) else none
  | _ =>
    match digitsToNat? cs with
    | some d => if cs.length ≤ 2 ∧ 1 ≤ d ∧ d ≤ 31 then some d else none
    | none => none

/-- Days in a month under the Gregorian leap-year rule used by `datetime`. -/
def giorni_nel_mese (anno mese : Nat) : Nat :=
  if mese = 2 then
    if anno % 4 = 0 ∧ (anno % 100 ≠ 0 ∨ anno % 400 = 0) then 29 else 28
  else if mese = 4 ∨ mese = 6 ∨ mese = 9 ∨ mese = 11 then 30 else 31

/-- `datetime.strptime(s, "%Y-%m-%d")`: `some` date on success, `none` for a
raised `ValueError` (malformed text or out-of-range component). -/
def strptimeYMD (s : String) : Option Date :=
  match splitOnDash s.toList with
  | [ys, ms, ds] =>
    match parseAnno? ys, parseMese? ms, parseGiorno? ds with
    | some y, some m, some d =>
      if 1 ≤ y ∧ d ≤ giorni_nel_mese y m then some ⟨y, m, d⟩ else none
    | _, _, _ => none
  | _ => none

/-- A daily-expense dict as built by `ExpenseManager.aggiungi_spesa_giornaliera`
(`data`, `categoria`, `descrizione`, `importo`, `conto`).  `data = none` models
a dict missing the `'data'` key (a `KeyError` on access); `conto = none` models
both a missing `'conto'` key and a stored `None`. -/
structure SpesaGiornaliera where
  data : Option String
  categoria : String
  descrizione : String
  importo : ℚ
  conto : Option String
deriving DecidableEq, Repr

/-- A recurring-expense dict as built by
`ExpenseManager.aggiungi_spesa_ricorrente`. -/
structure SpesaRicorrente where
  nome : String
  categoria : String
  importo : ℚ
  frequenza : String
  conto : Option String
deriving DecidableEq, Repr

/-- A payment-account dict as built by `AccountManager.aggiungi_conto`.
`datetime.now().isoformat()` is an ambient string, passed as an argument. -/
structure Conto where
  id : Nat
  nome : String
  descrizione : String
  tipo : String
  creato_il : String
deriving DecidableEq, Repr

/-- `AccountManager.aggiungi_conto`: appends a new account whose `id` is
`len(conti_list) + 1`.  The Python function mutates `conti_list` and returns
`True`; the model returns the new list. -/
def AccountManager.aggiungi_conto (conti_list : List Conto)
    (nome descrizione tipo_conto creato_il : String) : List Conto :=
  conti_list ++ [⟨conti_list.length + 1, nome, descrizione, tipo_conto, creato_il⟩]

/-- The f-string rejection message of `AccountManager.elimina_conto`. -/
def AccountManager.conto_in_uso_msg (conto_nome : String)
    (n_giornaliere n_ricorrenti : Nat) : String :=
  "Impossibile eliminare il conto \x27" ++ conto_nome ++ "\x27. È utilizzato in "
    ++ toString n_giornaliere ++ " spese giornaliere e "
    ++ toString n_ricorrenti ++ " spese ricorrenti."

/-- `AccountManager.elimina_conto`: result is `(success, message, new list)`;
the Python function mutates `conti_list` in place on success. -/
def AccountManager.elimina_conto (conti_list : List Conto)
    (spese_giornaliere : List SpesaGiornaliera)
    (spese_ricorrenti : List SpesaRicorrente) (indice : Nat) :
    Bool × String × List Conto :=
  if h : indice < conti_list.length then
    let conto_nome := (conti_list.get ⟨indice, h⟩).nome
    let spese_con_conto :=
      spese_giornaliere.filter fun s => decide (s.conto = some conto_nome)
    let spese_ricorrenti_con_conto :=
      spese_ricorrenti.filter fun s => decide (s.conto = some conto_nome)
    if spese_con_conto ≠ [] ∨ spese_ricorrenti_con_conto ≠ [] then
      (false,
        AccountManager.conto_in_uso_msg conto_nome spese_con_conto.length
          spese_ricorrenti_con_conto.length,
        conti_list)
    else
      (true, "Conto eliminato con successo", conti_list.eraseIdx indice)
  else
    (false, "Errore nell\x27eliminazione del conto", conti_list)

/-- `ExpenseCalculator.calcola_spese_ricorrenti_mensili`: the `for` loop
accumulating `totale`, one branch per recognised frequency (an unrecognised
frequency adds nothing).  `4.33` is the source's fixed weekly-to-monthly
constant, written `433 / 100`. -/
def ExpenseCalculator.calcola_spese_ricorrenti_mensili
    (spese_ricorrenti : List SpesaRicorrente) : ℚ :=
  spese_ricorrenti.foldl
    (fun totale spesa =>
      if spesa.frequenza = "Mensile" then totale + spesa.importo
      else if spesa.frequenza = "Settimanale" then
        totale + spesa.importo * (433 / 100 : ℚ)
      else if spesa.frequenza = "Annuale" then totale + spesa.importo / 12
      else totale)
    0

/-- Following the spec's words (the refinement target for C1):
"`monthly_equivalent(recurring_expense)`: `amount` unchanged for Monthly;
`amount × 4.33` for Weekly; `amount / 12` for Yearly."  A frequency outside
the enum is given the junk value 0, matching the code's loop. -/
def monthly_equivalent (spesa : SpesaRicorrente) : ℚ :=
  if spesa.frequenza = "Mensile" then spesa.importo
  else if spesa.frequenza = "Settimanale" then spesa.importo * (433 / 100 : ℚ)
  else if spesa.frequenza = "Annuale" then spesa.importo / 12
  else 0

/-- `ExpenseCalculator.filtra_spese_per_mese`: the loop with its
`try/except (ValueError, KeyError): continue` — a missing `'data'` key or an
unparseable date skips the record. -/
def ExpenseCalculator.filtra_spese_per_mese :
    List SpesaGiornaliera → Nat → Nat → List SpesaGiornaliera
  | [], _, _ => []
  | spesa :: rest, mese, anno =>
    match spesa.data with
    | none => ExpenseCalculator.filtra_spese_per_mese rest mese anno
    | some ds =>
      match strptimeYMD ds with
      | none => ExpenseCalculator.filtra_spese_per_mese rest mese anno
      | some d =>
        if d.month = mese ∧ d.year = anno then
          spesa :: ExpenseCalculator.filtra_spese_per_mese rest mese anno
        else ExpenseCalculator.filtra_spese_per_mese rest mese anno

/-- The predicate the month filter keeps a record by: its `'data'` field is
present, parses, and has the selected calendar month and year. -/
def data_in_mese (spesa : SpesaGiornaliera) (mese anno : Nat) : Bool :=
  match spesa.data with
  | none => false
  | some ds =>
    match strptimeYMD ds with
    | none => false
    | some d => decide (d.month = mese ∧ d.year = anno)

lemma filtra_eq_filter (sg : List SpesaGiornaliera) (mese anno : Nat) :
    ExpenseCalculator.filtra_spese_per_mese sg mese anno =
      sg.filter (fun s => data_in_mese s mese anno) := by
  induction sg with
  | nil => rfl
  | cons s rest ih =>
    cases hd : s.data with
    | none =>
      simp [ExpenseCalculator.filtra_spese_per_mese, data_in_mese, hd,
        List.filter_cons, ih]
    | some ds =>
      cases hp : strptimeYMD ds with
      | none =>
        simp [ExpenseCalculator.filtra_spese_per_mese, data_in_mese, hd, hp,
          List.filter_cons, ih]
      | some d =>
        by_cases hm : d.month = mese ∧ d.year = anno
        · simp [ExpenseCalculator.filtra_spese_per_mese, data_in_mese, hd, hp,
            hm, List.filter_cons, ih]
        · simp [ExpenseCalculator.filtra_spese_per_mese, data_in_mese, hd, hp,
            hm, List.filter_cons, ih]

lemma step_eq_monthly_equivalent (totale : ℚ) (spesa : SpesaRicorrente) :
    (if spesa.frequenza = "Mensile" then totale + spesa.importo
     else if spesa.frequenza = "Settimanale" then
       totale + spesa.importo * (433 / 100 : ℚ)
     else if spesa.frequenza = "Annuale" then totale + spesa.importo / 12
     else totale) = totale + monthly_equivalent spesa := by
  unfold monthly_equivalent
  split_ifs <;> simp

lemma foldl_add_monthly (l : List SpesaRicorrente) (a : ℚ) :
    l.foldl (fun totale spesa => totale + monthly_equivalent spesa) a =
      a + (l.map monthly_equivalent).sum := by
  induction l generalizing a with
  | nil => simp
  | cons s rest ih =>
    simp only [List.foldl_cons, List.map_cons, List.sum_cons, ih]
    ring

lemma calcola_ricorrenti_foldl (l : List SpesaRicorrente) (a : ℚ) :
    l.foldl
      (fun totale spesa =>
        if spesa.frequenza = "Mensile" then totale + spesa.importo
        else if spesa.frequenza = "Settimanale" then
          totale + spesa.importo * (433 / 100 : ℚ)
        else if spesa.frequenza = "Annuale" then totale + spesa.importo / 12
        else totale)
      a = a + (l.map monthly_equivalent).sum := by
  have hfun :
      (fun (totale : ℚ) (spesa : SpesaRicorrente) =>
        if spesa.frequenza = "Mensile" then totale + spesa.importo
        else if spesa.frequenza = "Settimanale" then
          totale + spesa.importo * (433 / 100 : ℚ)
        else if spesa.frequenza = "Annuale" then totale + spesa.importo / 12
        else totale) =
      fun totale spesa => totale + monthly_equivalent spesa := by
    funext t s
    exact step_eq_monthly_equivalent t s
  rw [hfun, foldl_add_monthly]

/-- C1: `calcola_spese_ricorrenti_mensili` returns the sum over all entries of
their monthly-equivalent amount (amount for Monthly, amount × 4.33 for Weekly,
amount / 12 for Yearly); the function takes no month/year selector, so the
total is independent of the month being viewed.  In particular
Weekly(10) ↦ 43.30, Monthly(10) ↦ 10.00, Yearly(120) ↦ 10.00. -/
theorem calcola_spese_ricorrenti_mensili_spec (spese : List SpesaRicorrente) :
    ExpenseCalculator.calcola_spese_ricorrenti_mensili spese =
      (spese.map monthly_equivalent).sum ∧
    monthly_equivalent ⟨"", "", 10, "Settimanale", none⟩ = 433 / 10 ∧
    monthly_equivalent ⟨"", "", 10, "Mensile", none⟩ = 10 ∧
    monthly_equivalent ⟨"", "", 120, "Annuale", none⟩ = 10 := by
  refine ⟨?_, ?_, ?_, ?_⟩
  · unfold ExpenseCalculator.calcola_spese_ricorrenti_mensili
    rw [calcola_ricorrenti_foldl]
    ring
  · unfold monthly_equivalent
    rw [if_neg (by decide), if_pos (by decide)]
    norm_num
  · unfold monthly_equivalent
    rw [if_pos (by decide)]
  · unfold monthly_equivalent
    rw [if_neg (by decide), if_neg (by decide), if_pos (by decide)]
    norm_num

/-- C3: the month filter returns exactly the expenses whose date has the
selected calendar month and year, in their original relative order (the result
is a sublist of the input), and it is idempotent. -/
theorem filtra_spese_per_mese_spec (sg : List SpesaGiornaliera)
    (mese anno : Nat) :
    ExpenseCalculator.filtra_spese_per_mese sg mese anno =
      sg.filter (fun s => data_in_mese s mese anno) ∧
    (ExpenseCalculator.filtra_spese_per_mese sg mese anno).Sublist sg ∧
    ExpenseCalculator.filtra_spese_per_mese
      (ExpenseCalculator.filtra_spese_per_mese sg mese anno) mese anno =
      ExpenseCalculator.filtra_spese_per_mese sg mese anno := by
  refine ⟨filtra_eq_filter sg mese anno, ?_, ?_⟩
  · rw [filtra_eq_filter]
    exact List.filter_sublist sg
  · rw [filtra_eq_filter sg mese anno, filtra_eq_filter]
    simp [List.filter_filter]

/-- C9: the month filter is total — a record whose `'data'` field is missing
or does not parse as `YYYY-MM-DD` is silently excluded rather than raising,
and every well-formed record in the selected month is kept. -/
theorem filtra_spese_per_mese_safe (sg : List SpesaGiornaliera)
    (mese anno : Nat) :
    (∀ s ∈ sg, s.data.bind strptimeYMD = none →
      s ∉ ExpenseCalculator.filtra_spese_per_mese sg mese anno) ∧
    (∀ s ∈ ExpenseCalculator.filtra_spese_per_mese sg mese anno,
      ∃ ds d, s.data = some ds ∧ strptimeYMD ds = some d ∧
        d.month = mese ∧ d.year = anno) ∧
    (∀ s ∈ sg, ∀ ds d, s.data = some ds → strptimeYMD ds = some d →
      d.month = mese → d.year = anno →
      s ∈ ExpenseCalculator.filtra_spese_per_mese sg mese anno) := by
  rw [filtra_eq_filter]
  refine ⟨?_, ?_, ?_⟩
  · intro s hs hnone hmem
    rcases List.mem_filter.mp hmem with ⟨-, hkeep⟩
    cases hd : s.data with
    | none => simp [data_in_mese, hd] at hkeep
    | some ds =>
      rw [hd] at hnone
      have hnone' : strptimeYMD ds = none := hnone
      simp [data_in_mese, hd, hnone'] at hkeep
  · intro s hmem
    rcases List.mem_filter.mp hmem with ⟨-, hkeep⟩
    cases hd : s.data with
    | none => simp [data_in_mese, hd] at hkeep
    | some ds =>
      cases hp : strptimeYMD ds with
      | none => simp [data_in_mese, hd, hp] at hkeep
      | some d =>
        simp only [data_in_mese, hd, hp, decide_eq_true_eq] at hkeep
        exact ⟨ds, d, rfl, hp, hkeep.1, hkeep.2⟩
  · intro s hs ds d hd hp h1 h2
    refine List.mem_filter.mpr ⟨hs, ?_⟩
    simp [data_in_mese, hd, hp, h1, h2]

/-- The account key a record's `conto` buckets to in
`ExpenseCalculator.calcola_spese_per_conto`: a missing key or `None` or the
sentinel string `"Nessuno"` all collapse to `'Non specificato'`. -/
def bucket_conto : Option String → String
  | none => "Non specificato"
  | some c => if c = "Nessuno" then "Non specificato" else c

/-- The recurring-expense monthly amount as computed inline by
`calcola_spese_per_conto` (`importo_mensile`): `×4.33` for weekly, `/12` for
yearly, and the raw amount otherwise. -/
def ExpenseCalculator.importo_mensile (spesa : SpesaRicorrente) : ℚ :=
  if spesa.frequenza = "Settimanale" then spesa.importo * (433 / 100 : ℚ)
  else if spesa.frequenza = "Annuale" then spesa.importo / 12
  else spesa.importo

/-- One step of the first loop of `calcola_spese_per_conto`: add a filtered
daily expense's amount to the `'giornaliere'` slot of its bucket, creating the
bucket at `(0, 0)` if absent.  The Python dict is modelled as a partial map
`String → Option (ℚ × ℚ)` (pairs are `(giornaliere, ricorrenti)`). -/
def ExpenseCalculator.aggiorna_giornaliere (m : String → Option (ℚ × ℚ))
    (spesa : SpesaGiornaliera) : String → Option (ℚ × ℚ) :=
  let conto := bucket_conto spesa.conto
  let cur := (m conto).getD (0, 0)
  fun k => if k = conto then some (cur.1 + spesa.importo, cur.2) else m k

/-- One step of the second loop of `calcola_spese_per_conto`: add a recurring
expense's monthly amount to the `'ricorrenti'` slot of its bucket. -/
def ExpenseCalculator.aggiorna_ricorrenti (m : String → Option (ℚ × ℚ))
    (spesa : SpesaRicorrente) : String → Option (ℚ × ℚ) :=
  let conto := bucket_conto spesa.conto
  let cur := (m conto).getD (0, 0)
  fun k =>
    if k = conto then some (cur.1, cur.2 + ExpenseCalculator.importo_mensile spesa)
    else m k

/-- `ExpenseCalculator.calcola_spese_per_conto`: month-filter the daily
expenses, group them by account, then add every recurring expense's monthly
amount (unfiltered by month) to its account's bucket. -/
def ExpenseCalculator.calcola_spese_per_conto (spese_giornaliere : List SpesaGiornaliera)
    (spese_ricorrenti : List SpesaRicorrente) (mese anno : Nat) :
    String → Option (ℚ × ℚ) :=
  let spese_mese := ExpenseCalculator.filtra_spese_per_mese spese_giornaliere mese anno
  spese_ricorrenti.foldl ExpenseCalculator.aggiorna_ricorrenti
    (spese_mese.foldl ExpenseCalculator.aggiorna_giornaliere fun _ => none)

lemma foldl_aggiorna_giornaliere (l : List SpesaGiornaliera)
    (m0 : String → Option (ℚ × ℚ)) (k : String) :
    (l.foldl ExpenseCalculator.aggiorna_giornaliere m0) k =
      if (l.filter fun s => decide (bucket_conto s.conto = k)) = [] then m0 k
      else
        some (((m0 k).getD (0, 0)).1 +
          ((l.filter fun s => decide (bucket_conto s.conto = k)).map
            SpesaGiornaliera.importo).sum,
          ((m0 k).getD (0, 0)).2) := by
  induction l generalizing m0 with
  | nil => simp
  | cons s rest ih =>
    rw [List.foldl_cons, ih]
    by_cases hb : bucket_conto s.conto = k
    · have hup : (ExpenseCalculator.aggiorna_giornaliere m0 s) k =
          some (((m0 k).getD (0, 0)).1 + s.importo, ((m0 k).getD (0, 0)).2) := by
        simp [ExpenseCalculator.aggiorna_giornaliere, hb]
      rw [List.filter_cons_of_pos (by simp [hb])]
      by_cases hrest : (rest.filter fun s => decide (bucket_conto s.conto = k)) = []
      · simp [hrest, hup]
      · simp only [hrest, if_neg hrest, hup, Option.getD_some, List.map_cons,
          List.sum_cons]
        rw [if_neg (List.cons_ne_nil _ _)]
        refine congrArg some (Prod.ext ?_ rfl)
        ring
    · have hup : (ExpenseCalculator.aggiorna_giornaliere m0 s) k = m0 k := by
        simp only [ExpenseCalculator.aggiorna_giornaliere]
        rw [if_neg (fun hk => hb hk.symm)]
      rw [List.filter_cons_of_neg (by simp [hb]), hup]
lemma foldl_aggiorna_ricorrenti (l : List SpesaRicorrente)
    (m0 : String → Option (ℚ × ℚ)) (k : String) :
    (l.foldl ExpenseCalculator.aggiorna_ricorrenti m0) k =
      if (l.filter fun s => decide (bucket_conto s.conto = k)) = [] then m0 k
      else
        some (((m0 k).getD (0, 0)).1,
          ((m0 k).getD (0, 0)).2 +
          ((l.filter fun s => decide (bucket_conto s.conto = k)).map
            ExpenseCalculator.importo_mensile).sum) := by
  induction l generalizing m0 with
  | nil => simp
  | cons s rest ih =>
    rw [List.foldl_cons, ih]
    by_cases hb : bucket_conto s.conto = k
    · have hup : (ExpenseCalculator.aggiorna_ricorrenti m0 s) k =
          some (((m0 k).getD (0, 0)).1,
            ((m0 k).getD (0, 0)).2 + ExpenseCalculator.importo_mensile s) := by
        simp [ExpenseCalculator.aggiorna_ricorrenti, hb]
      rw [List.filter_cons_of_pos (by simp [hb])]
      by_cases hrest : (rest.filter fun s => decide (bucket_conto s.conto = k)) = []
      · simp [hrest, hup]
      · simp only [hrest, if_neg hrest, hup, Option.getD_some, List.map_cons,
          List.sum_cons]
        rw [if_neg (List.cons_ne_nil _ _)]
        refine congrArg some (Prod.ext rfl ?_)
        ring
    · have hup : (ExpenseCalculator.aggiorna_ricorrenti m0 s) k = m0 k := by
        simp only [ExpenseCalculator.aggiorna_ricorrenti]
        rw [if_neg (fun hk => hb hk.symm)]
      rw [List.filter_cons_of_neg (by simp [hb]), hup]

/-- C2: for every account key, `calcola_spese_per_conto` maps it to a bucket
exactly when some month-filtered daily expense or some recurring expense
buckets to it; the bucket's `giornaliere` slot is the sum of the amounts of
the month's daily expenses bucketing there, and its `ricorrenti` slot is the
sum of the monthly-equivalent amounts of the recurring expenses bucketing
there (recurring expenses are not filtered by month). -/
theorem calcola_spese_per_conto_spec (sg : List SpesaGiornaliera)
    (sr : List SpesaRicorrente) (mese anno : Nat)
    (hfreq : ∀ s ∈ sr, s.frequenza = "Mensile" ∨ s.frequenza = "Settimanale" ∨
      s.frequenza = "Annuale") (k : String) :
    ExpenseCalculator.calcola_spese_per_conto sg sr mese anno k =
      if ((ExpenseCalculator.filtra_spese_per_mese sg mese anno).filter
            fun s => decide (bucket_conto s.conto = k)) = [] ∧
          (sr.filter fun s => decide (bucket_conto s.conto = k)) = [] then none
      else
        some
          ((((ExpenseCalculator.filtra_spese_per_mese sg mese anno).filter
              fun s => decide (bucket_conto s.conto = k)).map
              SpesaGiornaliera.importo).sum,
            ((sr.filter fun s => decide (bucket_conto s.conto = k)).map
              monthly_equivalent).sum) := by
  have hm : ∀ s ∈ sr.filter (fun s => decide (bucket_conto s.conto = k)),
      ExpenseCalculator.importo_mensile s = monthly_equivalent s := by
    intro s hs
    rcases hfreq s (List.mem_filter.mp hs).1 with h | h | h
    · simp [ExpenseCalculator.importo_mensile, monthly_equivalent, h,
        show ("Mensile" : String) ≠ "Settimanale" from by decide,
        show ("Mensile" : String) ≠ "Annuale" from by decide]
    · simp [ExpenseCalculator.importo_mensile, monthly_equivalent, h,
        show ("Settimanale" : String) ≠ "Mensile" from by decide]
    · simp [ExpenseCalculator.importo_mensile, monthly_equivalent, h,
        show ("Annuale" : String) ≠ "Mensile" from by decide,
        show ("Annuale" : String) ≠ "Settimanale" from by decide]
  have hmap : ((sr.filter fun s => decide (bucket_conto s.conto = k)).map
      ExpenseCalculator.importo_mensile) =
      ((sr.filter fun s => decide (bucket_conto s.conto = k)).map
        monthly_equivalent) := List.map_congr_left hm
  unfold ExpenseCalculator.calcola_spese_per_conto
  rw [foldl_aggiorna_ricorrenti, foldl_aggiorna_giornaliere]
  by_cases hd : ((ExpenseCalculator.filtra_spese_per_mese sg mese anno).filter
      fun s => decide (bucket_conto s.conto = k)) = [] <;>
    by_cases hr : (sr.filter fun s => decide (bucket_conto s.conto = k)) = [] <;>
    simp [hd, hr, hmap]

/-- Witness for C2 at the spec's scenario: a Monthly 50.00 recurring expense
with no account and a daily 20.00 expense in the queried month tagged "Cash";
the unassigned bucket holds `(0, 50)`. -/
theorem calcola_spese_per_conto_spec_witness :
    ExpenseCalculator.calcola_spese_per_conto
        [⟨some "2024-03-15", "Cibo", "pranzo", 20, some "Cash"⟩]
        [⟨"Affitto", "Casa", 50, "Mensile", none⟩] 3 2024 "Non specificato" =
      some (0, 50) := by
  have h := calcola_spese_per_conto_spec
      [⟨some "2024-03-15", "Cibo", "pranzo", 20, some "Cash"⟩]
      [⟨"Affitto", "Casa", 50, "Mensile", none⟩] 3 2024
      (by
        intro s hs
        rw [List.mem_singleton] at hs
        subst hs
        exact Or.inl rfl)
      "Non specificato"
  rw [h]
  have hdl : ExpenseCalculator.filtra_spese_per_mese
      [⟨some "2024-03-15", "Cibo", "pranzo", 20, some "Cash"⟩] 3 2024 =
      [⟨some "2024-03-15", "Cibo", "pranzo", 20, some "Cash"⟩] := by
    rw [filtra_eq_filter]
    simp [data_in_mese,
      show strptimeYMD "2024-03-15" = some ⟨2024, 3, 15⟩ from by decide]
  rw [hdl]
  simp [bucket_conto, monthly_equivalent,
    show ("Cash" : String) ≠ "Nessuno" from by decide,
    show ("Cash" : String) ≠ "Non specificato" from by decide]

lemma filter_ne_nil_iff {α : Type} (l : List α) (p : α → Prop) [DecidablePred p] :
    l.filter (fun x => decide (p x)) ≠ [] ↔ ∃ x ∈ l, p x := by
  constructor
  · intro hne
    rcases List.exists_mem_of_ne_nil _ hne with ⟨x, hx⟩
    rcases List.mem_filter.mp hx with ⟨hmem, hp⟩
    exact ⟨x, hmem, of_decide_eq_true hp⟩
  · rintro ⟨x, hmem, hp⟩ hnil
    have : x ∈ l.filter (fun x => decide (p x)) :=
      List.mem_filter.mpr ⟨hmem, decide_eq_true hp⟩
    simp [hnil] at this

/-- C4: with an in-range index, `elimina_conto` fails exactly when some daily
or recurring expense references the account's name; on failure the accounts
list is unchanged and the message carries the exact counts of referencing
daily and recurring expenses; on success exactly the indexed account is
removed. -/
theorem elimina_conto_spec (conti : List Conto) (sg : List SpesaGiornaliera)
    (sr : List SpesaRicorrente) (indice : Nat) (h : indice < conti.length) :
    ((AccountManager.elimina_conto conti sg sr indice).1 = false ↔
      ((∃ s ∈ sg, s.conto = some (conti.get ⟨indice, h⟩).nome) ∨
        (∃ s ∈ sr, s.conto = some (conti.get ⟨indice, h⟩).nome))) ∧
    ((AccountManager.elimina_conto conti sg sr indice).1 = false →
      (AccountManager.elimina_conto conti sg sr indice).2.2 = conti ∧
      (AccountManager.elimina_conto conti sg sr indice).2.1 =
        AccountManager.conto_in_uso_msg (conti.get ⟨indice, h⟩).nome
          (sg.filter fun s =>
            decide (s.conto = some (conti.get ⟨indice, h⟩).nome)).length
          (sr.filter fun s =>
            decide (s.conto = some (conti.get ⟨indice, h⟩).nome)).length) ∧
    ((AccountManager.elimina_conto conti sg sr indice).1 = true →
      (AccountManager.elimina_conto conti sg sr indice).2.2 =
        conti.eraseIdx indice ∧
      (AccountManager.elimina_conto conti sg sr indice).2.1 =
        "Conto eliminato con successo") := by
  unfold AccountManager.elimina_conto
  rw [dif_pos h]
  by_cases hc :
      (sg.filter fun s => decide (s.conto = some (conti.get ⟨indice, h⟩).nome)) ≠ [] ∨
      (sr.filter fun s => decide (s.conto = some (conti.get ⟨indice, h⟩).nome)) ≠ []
  · rw [if_pos hc]
    refine ⟨?_, fun _ => ⟨rfl, rfl⟩, fun habs => absurd habs (by simp)⟩
    simp only [true_iff, show (false = false) = True from by simp]
    rcases hc with hc | hc
    · exact Or.inl ((filter_ne_nil_iff sg _).mp hc)
    · exact Or.inr ((filter_ne_nil_iff sr _).mp hc)
  · rw [if_neg hc]
    push_neg at hc
    refine ⟨?_, fun habs => absurd habs (by simp), fun _ => ⟨rfl, rfl⟩⟩
    constructor
    · intro habs
      exact absurd habs (by simp)
    · intro hex
      exfalso
      rcases hex with hex | hex
      · exact (filter_ne_nil_iff sg _).mpr hex hc.1
      · exact (filter_ne_nil_iff sr _).mpr hex hc.2

/-- Witness for C4: deleting the account "Cash" while one daily expense
references it is rejected. -/
theorem elimina_conto_spec_witness :
    (AccountManager.elimina_conto [⟨1, "Cash", "", "Personale", "t"⟩]
        [⟨some "2024-03-15", "Cibo", "pranzo", 20, some "Cash"⟩] [] 0).1 =
      false := by
  have h := elimina_conto_spec [⟨1, "Cash", "", "Personale", "t"⟩]
      [⟨some "2024-03-15", "Cibo", "pranzo", 20, some "Cash"⟩] [] 0
      (by decide)
  exact h.1.mpr (Or.inl ⟨⟨some "2024-03-15", "Cibo", "pranzo", 20, some "Cash"⟩,
    List.mem_singleton.mpr rfl, rfl⟩)

/-- C7 (code bug): account ids are NOT always unique.  Starting from no
accounts: add "A", add "B" (ids 1, 2), delete index 0 (allowed — no expense
references "A"), then add "C": `len+1` assigns id 2 again, so the final list
carries the duplicate ids [2, 2]. -/
theorem aggiungi_conto_duplicate_id_bug :
    ((AccountManager.aggiungi_conto
        (AccountManager.elimina_conto
          (AccountManager.aggiungi_conto
            (AccountManager.aggiungi_conto [] "A" "" "Personale" "t1")
            "B" "" "Personale" "t2")
          [] [] 0).2.2
        "C" "" "Personale" "t3").map Conto.id) = [2, 2] ∧
    ¬ ((AccountManager.aggiungi_conto
        (AccountManager.elimina_conto
          (AccountManager.aggiungi_conto
            (AccountManager.aggiungi_conto [] "A" "" "Personale" "t1")
            "B" "" "Personale" "t2")
          [] [] 0).2.2
        "C" "" "Personale" "t3").map Conto.id).Nodup := by
  constructor
  · rfl
  · decide

/-- The JSON values exchanged by `json.dumps`/`json.loads` in
`DataManager.esporta_dati_per_backup` / `DataManager.carica_backup`.  The
text serialization itself is not modelled: `json.loads(json.dumps(v))`
returns an equal value for every JSON-representable `v`, so export and import
are related at the level of parsed values. -/
inductive Json where
  | null : Json
  | str : String → Json
  | num : ℚ → Json
  | arr : List Json → Json
  | obj : List (String × Json) → Json

/-- An optional account reference as stored in a dict: `None` becomes JSON
`null`. -/
def encodeContoRef : Option String → Json
  | none => Json.null
  | some c => Json.str c

/-- The JSON object `json.dumps` writes for a daily-expense dict.  A record
whose `'data'` key is absent (`data = none`) is serialized without that key. -/
def encodeSpesaGiornaliera (s : SpesaGiornaliera) : Json :=
  Json.obj
    ((match s.data with
      | some d => [("data", Json.str d)]
      | none => []) ++
      [("categoria", Json.str s.categoria),
        ("descrizione", Json.str s.descrizione),
        ("importo", Json.num s.importo),
        ("conto", encodeContoRef s.conto)])

/-- The JSON object `json.dumps` writes for a recurring-expense dict. -/
def encodeSpesaRicorrente (s : SpesaRicorrente) : Json :=
  Json.obj
    [("nome", Json.str s.nome),
      ("categoria", Json.str s.categoria),
      ("importo", Json.num s.importo),
      ("frequenza", Json.str s.frequenza),
      ("conto", encodeContoRef s.conto)]

/-- The JSON object `json.dumps` writes for an account dict. -/
def encodeConto (c : Conto) : Json :=
  Json.obj
    [("id", Json.num (c.id : ℚ)),
      ("nome", Json.str c.nome),
      ("descrizione", Json.str c.descrizione),
      ("tipo", Json.str c.tipo),
      ("creato_il", Json.str c.creato_il)]

/-- Read a daily-expense record's field values back from its JSON form (the
formal meaning of "same field values" in the round-trip law). -/
def decodeSpesaGiornaliera (j : Json) : Option SpesaGiornaliera :=
  match j with
  | Json.obj fields =>
    match List.lookup "categoria" fields, List.lookup "descrizione" fields,
        List.lookup "importo" fields, List.lookup "conto" fields with
    | some (Json.str cat), some (Json.str des), some (Json.num imp), some cj =>
      match cj with
      | Json.null =>
        some ⟨(match List.lookup "data" fields with
          | some (Json.str d) => some d
          | _ => none), cat, des, imp, none⟩
      | Json.str c =>
        some ⟨(match List.lookup "data" fields with
          | some (Json.str d) => some d
          | _ => none), cat, des, imp, some c⟩
      | _ => none
    | _, _, _, _ => none
  | _ => none

/-- Read a recurring-expense record back from its JSON form. -/
def decodeSpesaRicorrente (j : Json) : Option SpesaRicorrente :=
  match j with
  | Json.obj fields =>
    match List.lookup "nome" fields, List.lookup "categoria" fields,
        List.lookup "importo" fields, List.lookup "frequenza" fields,
        List.lookup "conto" fields with
    | some (Json.str nome), some (Json.str cat), some (Json.num imp),
        some (Json.str freq), some cj =>
      match cj with
      | Json.null => some ⟨nome, cat, imp, freq, none⟩
      | Json.str c => some ⟨nome, cat, imp, freq, some c⟩
      | _ => none
    | _, _, _, _, _ => none
  | _ => none

/-- Read an account record back from its JSON form. -/
def decodeConto (j : Json) : Option Conto :=
  match j with
  | Json.obj fields =>
    match List.lookup "id" fields, List.lookup "nome" fields,
        List.lookup "descrizione" fields, List.lookup "tipo" fields,
        List.lookup "creato_il" fields with
    | some (Json.num i), some (Json.str nome), some (Json.str des),
        some (Json.str tipo), some (Json.str cr) =>
      if i.den = 1 ∧ 0 ≤ i.num then some ⟨i.num.toNat, nome, des, tipo, cr⟩
      else none
    | _, _, _, _, _ => none
  | _ => none

/-- Decode every element of a list, failing if any element fails. -/
def decodeEach {α : Type} (dec : Json → Option α) : List Json → Option (List α)
  | [] => some []
  | j :: rest =>
    match dec j, decodeEach dec rest with
    | some a, some as => some (a :: as)
    | _, _ => none

/-- Decode a JSON array of daily-expense records. -/
def decodeListSpesaGiornaliera (j : Json) : Option (List SpesaGiornaliera) :=
  match j with
  | Json.arr l => decodeEach decodeSpesaGiornaliera l
  | _ => none

/-- Decode a JSON array of recurring-expense records. -/
def decodeListSpesaRicorrente (j : Json) : Option (List SpesaRicorrente) :=
  match j with
  | Json.arr l => decodeEach decodeSpesaRicorrente l
  | _ => none

/-- Decode a JSON array of account records. -/
def decodeListConto (j : Json) : Option (List Conto) :=
  match j with
  | Json.arr l => decodeEach decodeConto l
  | _ => none

/-- `DataManager.esporta_dati_per_backup`: the JSON value whose `json.dumps`
text the function returns.  The database load at the top of the function
(`DataManager.carica_dati(username)`) is modelled by passing the user's three
collections as arguments; `export_date` is the ambient
`datetime.now().isoformat()` string. -/
def DataManager.esporta_dati_per_backup (spese_giornaliere : List SpesaGiornaliera)
    (spese_ricorrenti : List SpesaRicorrente) (conti : List Conto)
    (export_date username : String) : Json :=
  Json.obj
    [("spese_giornaliere", Json.arr (spese_giornaliere.map encodeSpesaGiornaliera)),
      ("spese_ricorrenti", Json.arr (spese_ricorrenti.map encodeSpesaRicorrente)),
      ("conti", Json.arr (conti.map encodeConto)),
      ("export_date", Json.str export_date),
      ("username", Json.str username)]

/-- `DataManager.carica_backup` applied to parsed backup content: reads the
three collections with `data.get(key, [])` defaults; content that is not a
JSON object makes `data.get` raise, caught and re-raised as the generic
backup error. -/
def DataManager.carica_backup (j : Json) : Except String (Json × Json × Json) :=
  match j with
  | Json.obj fields =>
    Except.ok
      ((List.lookup "spese_giornaliere" fields).getD (Json.arr []),
        (List.lookup "spese_ricorrenti" fields).getD (Json.arr []),
        (List.lookup "conti" fields).getD (Json.arr []))
  | _ => Except.error "Errore nel caricamento del backup"

lemma decode_encode_spesa_giornaliera (s : SpesaGiornaliera) :
    decodeSpesaGiornaliera (encodeSpesaGiornaliera s) = some s := by
  rcases s with ⟨d, cat, des, imp, c⟩
  cases d <;> cases c <;> rfl

lemma decode_encode_spesa_ricorrente (s : SpesaRicorrente) :
    decodeSpesaRicorrente (encodeSpesaRicorrente s) = some s := by
  rcases s with ⟨n, cat, imp, f, c⟩
  cases c <;> rfl

lemma decode_encode_conto (c : Conto) :
    decodeConto (encodeConto c) = some c := by
  rcases c with ⟨i, n, des, t, cr⟩
  have h2 : ((i : ℚ)).num = (i : ℤ) := Rat.num_natCast i
  show (if ((i : ℚ)).den = 1 ∧ 0 ≤ ((i : ℚ)).num then
      some (⟨((i : ℚ)).num.toNat, n, des, t, cr⟩ : Conto) else none) =
    some ⟨i, n, des, t, cr⟩
  rw [if_pos ⟨Rat.den_natCast i, by rw [h2]; positivity⟩]
  simp [h2]

lemma decodeEach_map_encode {α : Type} (enc : α → Json) (dec : Json → Option α)
    (hround : ∀ a, dec (enc a) = some a) (l : List α) :
    decodeEach dec (l.map enc) = some l := by
  induction l with
  | nil => rfl
  | cons a rest ih =>
    simp [decodeEach, hround, ih]

/-- C5: importing an exported backup succeeds and reproduces the three
collections exactly — same cardinality and same field values, with the export
metadata (`export_date`, `username`) not affecting the result. -/
theorem backup_roundtrip_spec (spese_giornaliere : List SpesaGiornaliera)
    (spese_ricorrenti : List SpesaRicorrente) (conti : List Conto)
    (export_date username : String) :
    DataManager.carica_backup
        (DataManager.esporta_dati_per_backup spese_giornaliere spese_ricorrenti
          conti export_date username) =
      Except.ok
        (Json.arr (spese_giornaliere.map encodeSpesaGiornaliera),
          Json.arr (spese_ricorrenti.map encodeSpesaRicorrente),
          Json.arr (conti.map encodeConto)) ∧
    decodeListSpesaGiornaliera
        (Json.arr (spese_giornaliere.map encodeSpesaGiornaliera)) =
      some spese_giornaliere ∧
    decodeListSpesaRicorrente
        (Json.arr (spese_ricorrenti.map encodeSpesaRicorrente)) =
      some spese_ricorrenti ∧
    decodeListConto (Json.arr (conti.map encodeConto)) = some conti := by
  refine ⟨rfl, ?_, ?_, ?_⟩
  · exact decodeEach_map_encode _ _ decode_encode_spesa_giornaliera spese_giornaliere
  · exact decodeEach_map_encode _ _ decode_encode_spesa_ricorrente spese_ricorrenti
  · exact decodeEach_map_encode _ _ decode_encode_conto conti

/-- `SecurityConfig.MIN_PASSWORD_LENGTH`. -/
def SecurityConfig.MIN_PASSWORD_LENGTH : Nat := 8

/-- `SecurityConfig.MAX_LOGIN_ATTEMPTS`. -/
def SecurityConfig.MAX_LOGIN_ATTEMPTS : Nat := 5

/-- `SecurityConfig.LOCKOUT_DURATION` (seconds).  `time.time()` instants are
modelled as rationals. -/
def SecurityConfig.LOCKOUT_DURATION : ℚ := 300

/-- `FileManager.sanitize_username`: `re.sub(r'[^a-zA-Z0-9_-]', '', username)`
keeps only ASCII letters, digits, underscore and hyphen. -/
def FileManager.sanitize_username (username : String) : String :=
  ⟨username.toList.filter fun c =>
    c.isAlpha || c.isDigit || c = '_' || c = '-'⟩

lemma sanitize_username_idem (u : String) :
    FileManager.sanitize_username (FileManager.sanitize_username u) =
      FileManager.sanitize_username u := by
  simp [FileManager.sanitize_username, String.toList, List.filter_filter]

/-- The special characters of the strength regex `[!@#$%^&*(),.?":{}|<>]`. -/
def is_special_char (c : Char) : Bool :=
  ['!', '@', '#', '$', '%', '^', '&', '*', '(', ')', ',', '.', '?', '"',
    ':', '{', '}', '|', '<', '>'].contains c

/-- `PasswordManager.validate_password_strength`: too short is rejected
outright; otherwise the password must miss at most one of the four character
classes (Python's `re.search` checks; `\d` is taken as the ASCII digits
`[0-9]`). -/
def PasswordManager.validate_password_strength (password : String) :
    Bool × String :=
  if password.toList.length < SecurityConfig.MIN_PASSWORD_LENGTH then
    (false, "La password deve essere di almeno 8 caratteri")
  else
    let missing : List String :=
      (if password.toList.any Char.isUpper then [] else ["lettere maiuscole"]) ++
      (if password.toList.any Char.isLower then [] else ["lettere minuscole"]) ++
      (if password.toList.any Char.isDigit then [] else ["numeri"]) ++
      (if password.toList.any is_special_char then [] else
        ["caratteri speciali (!@#$%^&*(),.?\":\x7b\x7d|<>)"])
    if missing.length > 1 then
      (false, "La password deve contenere: " ++ String.intercalate ", " missing)
    else (true, "Password valida")

/-- A per-username entry of the login-attempts store.  A username absent from
the Python dict behaves in every reader exactly like
`{'failed_attempts': 0, 'last_attempt': 0}`, so the store is modelled as a
total map with that default. -/
structure AttemptRecord where
  failed_attempts : Nat
  last_attempt : ℚ
deriving DecidableEq, Repr

/-- The login-attempts store (`login_attempts.json`). -/
abbrev AttemptsData := String → AttemptRecord

/-- Write one username's entry of the attempts store. -/
def setAttempts (a : AttemptsData) (k : String) (v : AttemptRecord) :
    AttemptsData :=
  fun k' => if k' = k then v else a k'

/-- `LoginAttemptTracker.is_account_locked`: returns `(locked, remaining)` and
the (possibly reset) store it saves — the reset on an expired lockout is a
side effect on `login_attempts.json`.  The Python truncation
`int(remaining_time)` is not applied; the exact remaining time is kept. -/
def LoginAttemptTracker.is_account_locked (a : AttemptsData) (now : ℚ)
    (username : String) : (Bool × ℚ) × AttemptsData :=
  let username_clean := FileManager.sanitize_username username
  let user_attempts := a username_clean
  if user_attempts.failed_attempts < SecurityConfig.MAX_LOGIN_ATTEMPTS then
    ((false, 0), a)
  else if SecurityConfig.LOCKOUT_DURATION < now - user_attempts.last_attempt then
    ((false, 0), setAttempts a username_clean ⟨0, 0⟩)
  else
    ((true, SecurityConfig.LOCKOUT_DURATION - (now - user_attempts.last_attempt)), a)

/-- `LoginAttemptTracker.record_failed_login`. -/
def LoginAttemptTracker.record_failed_login (a : AttemptsData) (now : ℚ)
    (username : String) : AttemptsData :=
  let username_clean := FileManager.sanitize_username username
  setAttempts a username_clean ⟨(a username_clean).failed_attempts + 1, now⟩

/-- `LoginAttemptTracker.record_successful_login`: resets the counter (the
Python guard "only if present" is observationally the same on the total-map
model, since an absent entry already reads as `⟨0, 0⟩`). -/
def LoginAttemptTracker.record_successful_login (a : AttemptsData)
    (username : String) : AttemptsData :=
  setAttempts a (FileManager.sanitize_username username) ⟨0, 0⟩

/-- A stored credential record of `users_secure.json`. -/
structure UserRecord where
  password_hash : String
  salt : String
deriving DecidableEq, Repr

/-- The credential store: sanitized username to its record. -/
abbrev Users := String → Option UserRecord

/-- The three outcomes of `UserAuthenticator.authenticate_user`; each
constructor stands for the corresponding returned message:
`locked r` ↦ `(False, "Account bloccato. Riprova tra r secondi.")`,
`invalidCredentials` ↦ `(False, "Credenziali non valide")`,
`success` ↦ `(True, "Login effettuato con successo")`. -/
inductive AuthResult where
  | locked : ℚ → AuthResult
  | invalidCredentials : AuthResult
  | success : AuthResult
deriving DecidableEq, Repr

/-- `UserAuthenticator.authenticate_user`: lockout check first (its store
side effect kept), then credential lookup and hash comparison.
`PasswordManager.hash_password_secure` (PBKDF2-HMAC-SHA256) is abstracted as
the function argument `hash_password`; a missing users file behaves as an
empty credential store, covered by the `none` lookup branch. -/
def UserAuthenticator.authenticate_user (hash_password : String → String → String)
    (users : Users) (a : AttemptsData) (now : ℚ) (username password : String) :
    AuthResult × AttemptsData :=
  let username_clean := FileManager.sanitize_username username
  let lock := LoginAttemptTracker.is_account_locked a now username_clean
  if lock.1.1 then (AuthResult.locked lock.1.2, lock.2)
  else
    match users username_clean with
    | some user_data =>
      if hash_password password user_data.salt = user_data.password_hash then
        (AuthResult.success,
          LoginAttemptTracker.record_successful_login lock.2 username_clean)
      else
        (AuthResult.invalidCredentials,
          LoginAttemptTracker.record_failed_login lock.2 now username_clean)
    | none =>
      (AuthResult.invalidCredentials,
        LoginAttemptTracker.record_failed_login lock.2 now username_clean)

/-- `UserAuthenticator.register_user`: username validation, then password
strength, then duplicate check.  The salt generation, hashing and file write
of the success path produce the stored credential; the claims concern the
returned `(ok, message)` pair, which is what the model yields. -/
def UserAuthenticator.register_user (users : Users) (username password : String) :
    Bool × String :=
  let username_clean := FileManager.sanitize_username username
  if username_clean.toList.length < 3 then
    (false, "L\x27username deve essere di almeno 3 caratteri alfanumerici")
  else if username ≠ username_clean then
    (false, "L\x27username può contenere solo lettere, numeri, underscore e trattini")
  else
    let v := PasswordManager.validate_password_strength password
    if v.1 = false then (false, v.2)
    else if (users username_clean).isSome then (false, "Username già esistente")
    else (true, "Utente registrato con successo")

lemma authenticate_wrong_password (hash : String → String → String)
    (users : Users) (a : AttemptsData) (now : ℚ) (u p : String) (ud : UserRecord)
    (hu : users (FileManager.sanitize_username u) = some ud)
    (hp : hash p ud.salt ≠ ud.password_hash)
    (hlt : (a (FileManager.sanitize_username u)).failed_attempts <
      SecurityConfig.MAX_LOGIN_ATTEMPTS) :
    UserAuthenticator.authenticate_user hash users a now u p =
      (AuthResult.invalidCredentials,
        setAttempts a (FileManager.sanitize_username u)
          ⟨(a (FileManager.sanitize_username u)).failed_attempts + 1, now⟩) := by
  simp only [UserAuthenticator.authenticate_user,
    LoginAttemptTracker.is_account_locked,
    LoginAttemptTracker.record_failed_login, sanitize_username_idem,
    if_pos hlt]
  simp [hu, hp]

lemma authenticate_unknown_user (hash : String → String → String)
    (users : Users) (a : AttemptsData) (now : ℚ) (u p : String)
    (hu : users (FileManager.sanitize_username u) = none)
    (hlt : (a (FileManager.sanitize_username u)).failed_attempts <
      SecurityConfig.MAX_LOGIN_ATTEMPTS) :
    UserAuthenticator.authenticate_user hash users a now u p =
      (AuthResult.invalidCredentials,
        setAttempts a (FileManager.sanitize_username u)
          ⟨(a (FileManager.sanitize_username u)).failed_attempts + 1, now⟩) := by
  simp only [UserAuthenticator.authenticate_user,
    LoginAttemptTracker.is_account_locked,
    LoginAttemptTracker.record_failed_login, sanitize_username_idem,
    if_pos hlt]
  simp [hu]

lemma authenticate_locked_out (hash : String → String → String)
    (users : Users) (a : AttemptsData) (now : ℚ) (u p : String)
    (hge : ¬ (a (FileManager.sanitize_username u)).failed_attempts <
      SecurityConfig.MAX_LOGIN_ATTEMPTS)
    (hin : ¬ SecurityConfig.LOCKOUT_DURATION <
      now - (a (FileManager.sanitize_username u)).last_attempt) :
    UserAuthenticator.authenticate_user hash users a now u p =
      (AuthResult.locked (SecurityConfig.LOCKOUT_DURATION -
        (now - (a (FileManager.sanitize_username u)).last_attempt)), a) := by
  simp only [UserAuthenticator.authenticate_user,
    LoginAttemptTracker.is_account_locked, sanitize_username_idem,
    if_neg hge, if_neg hin]
  simp

lemma authenticate_lockout_expired (hash : String → String → String)
    (users : Users) (a : AttemptsData) (now : ℚ) (u pw : String) (ud : UserRecord)
    (hu : users (FileManager.sanitize_username u) = some ud)
    (hok : hash pw ud.salt = ud.password_hash)
    (hge : ¬ (a (FileManager.sanitize_username u)).failed_attempts <
      SecurityConfig.MAX_LOGIN_ATTEMPTS)
    (hout : SecurityConfig.LOCKOUT_DURATION <
      now - (a (FileManager.sanitize_username u)).last_attempt) :
    UserAuthenticator.authenticate_user hash users a now u pw =
      (AuthResult.success,
        setAttempts (setAttempts a (FileManager.sanitize_username u) ⟨0, 0⟩)
          (FileManager.sanitize_username u) ⟨0, 0⟩) := by
  simp only [UserAuthenticator.authenticate_user,
    LoginAttemptTracker.is_account_locked,
    LoginAttemptTracker.record_successful_login, sanitize_username_idem,
    if_neg hge, if_pos hout]
  simp [hu, hok]

/-- The attempts store left by a sequence of `authenticate_user` calls for one
username: each element of the list is one call's `(time.time(), password)`. -/
def UserAuthenticator.auth_run (hash_password : String → String → String)
    (users : Users) (u : String) :
    AttemptsData → List (ℚ × String) → AttemptsData
  | a, [] => a
  | a, (t, p) :: rest =>
    UserAuthenticator.auth_run hash_password users u
      (UserAuthenticator.authenticate_user hash_password users a t u p).2 rest

lemma setAttempts_read (a : AttemptsData) (k : String) (v : AttemptRecord) :
    (setAttempts a k v) k = v := by
  simp [setAttempts]

lemma setAttempts_collapse (a : AttemptsData) (k : String)
    (v v' : AttemptRecord) :
    setAttempts (setAttempts a k v) k v' = setAttempts a k v' := by
  funext k'
  simp only [setAttempts]
  split <;> rfl

lemma wrong_step_norm (hash : String → String → String) (users : Users)
    (a0 : AttemptsData) (u p : String) (ud : UserRecord)
    (hu : users (FileManager.sanitize_username u) = some ud)
    (hp : hash p ud.salt ≠ ud.password_hash) (i : Nat)
    (hi : i < SecurityConfig.MAX_LOGIN_ATTEMPTS) (t tprev : ℚ) :
    UserAuthenticator.authenticate_user hash users
      (setAttempts a0 (FileManager.sanitize_username u) ⟨i, tprev⟩) t u p =
      (AuthResult.invalidCredentials,
        setAttempts a0 (FileManager.sanitize_username u) ⟨i + 1, t⟩) := by
  rw [authenticate_wrong_password hash users _ t u p ud hu hp
    (by rw [setAttempts_read]; exact hi)]
  rw [setAttempts_read, setAttempts_collapse]

/-- C6: for a registered user starting at zero failed attempts, five
consecutive wrong-password calls each fail with invalid credentials and leave
the counter at `MAX_LOGIN_ATTEMPTS = 5`; the next call then fails with the
account-locked outcome even with the correct password, as long as the lockout
duration has not elapsed since the fifth failure; once it has elapsed, the
correct password succeeds and the counter is reset to zero. -/
theorem authenticate_lockout_spec (hash : String → String → String)
    (users : Users) (a0 : AttemptsData) (u pw p1 p2 p3 p4 p5 : String)
    (t1 t2 t3 t4 t5 t6 : ℚ) (ud : UserRecord)
    (hu : users (FileManager.sanitize_username u) = some ud)
    (h0 : (a0 (FileManager.sanitize_username u)).failed_attempts = 0)
    (hok : hash pw ud.salt = ud.password_hash)
    (hw1 : hash p1 ud.salt ≠ ud.password_hash)
    (hw2 : hash p2 ud.salt ≠ ud.password_hash)
    (hw3 : hash p3 ud.salt ≠ ud.password_hash)
    (hw4 : hash p4 ud.salt ≠ ud.password_hash)
    (hw5 : hash p5 ud.salt ≠ ud.password_hash) :
    SecurityConfig.MAX_LOGIN_ATTEMPTS = 5 ∧
    (UserAuthenticator.authenticate_user hash users a0 t1 u p1).1 =
      AuthResult.invalidCredentials ∧
    (UserAuthenticator.authenticate_user hash users
      (UserAuthenticator.auth_run hash users u a0 [(t1, p1)]) t2 u p2).1 =
      AuthResult.invalidCredentials ∧
    (UserAuthenticator.authenticate_user hash users
      (UserAuthenticator.auth_run hash users u a0 [(t1, p1), (t2, p2)])
      t3 u p3).1 = AuthResult.invalidCredentials ∧
    (UserAuthenticator.authenticate_user hash users
      (UserAuthenticator.auth_run hash users u a0 [(t1, p1), (t2, p2), (t3, p3)])
      t4 u p4).1 = AuthResult.invalidCredentials ∧
    (UserAuthenticator.authenticate_user hash users
      (UserAuthenticator.auth_run hash users u a0
        [(t1, p1), (t2, p2), (t3, p3), (t4, p4)]) t5 u p5).1 =
      AuthResult.invalidCredentials ∧
    ((UserAuthenticator.auth_run hash users u a0
        [(t1, p1), (t2, p2), (t3, p3), (t4, p4), (t5, p5)])
      (FileManager.sanitize_username u)).failed_attempts =
      SecurityConfig.MAX_LOGIN_ATTEMPTS ∧
    (¬ SecurityConfig.LOCKOUT_DURATION < t6 - t5 →
      (UserAuthenticator.authenticate_user hash users
        (UserAuthenticator.auth_run hash users u a0
          [(t1, p1), (t2, p2), (t3, p3), (t4, p4), (t5, p5)]) t6 u pw).1 =
        AuthResult.locked (SecurityConfig.LOCKOUT_DURATION - (t6 - t5))) ∧
    (SecurityConfig.LOCKOUT_DURATION < t6 - t5 →
      (UserAuthenticator.authenticate_user hash users
        (UserAuthenticator.auth_run hash users u a0
          [(t1, p1), (t2, p2), (t3, p3), (t4, p4), (t5, p5)]) t6 u pw).1 =
        AuthResult.success ∧
      ((UserAuthenticator.authenticate_user hash users
        (UserAuthenticator.auth_run hash users u a0
          [(t1, p1), (t2, p2), (t3, p3), (t4, p4), (t5, p5)]) t6 u pw).2
        (FileManager.sanitize_username u)).failed_attempts = 0) := by
  have e1 : UserAuthenticator.authenticate_user hash users a0 t1 u p1 =
      (AuthResult.invalidCredentials,
        setAttempts a0 (FileManager.sanitize_username u) ⟨1, t1⟩) := by
    rw [authenticate_wrong_password hash users a0 t1 u p1 ud hu hw1
      (by rw [h0]; norm_num [SecurityConfig.MAX_LOGIN_ATTEMPTS]), h0]
  have e2 := wrong_step_norm hash users a0 u p2 ud hu hw2 1
    (by norm_num [SecurityConfig.MAX_LOGIN_ATTEMPTS]) t2 t1
  have e3 := wrong_step_norm hash users a0 u p3 ud hu hw3 2
    (by norm_num [SecurityConfig.MAX_LOGIN_ATTEMPTS]) t3 t2
  have e4 := wrong_step_norm hash users a0 u p4 ud hu hw4 3
    (by norm_num [SecurityConfig.MAX_LOGIN_ATTEMPTS]) t4 t3
  have e5 := wrong_step_norm hash users a0 u p5 ud hu hw5 4
    (by norm_num [SecurityConfig.MAX_LOGIN_ATTEMPTS]) t5 t4
  have r1 : UserAuthenticator.auth_run hash users u a0 [(t1, p1)] =
      setAttempts a0 (FileManager.sanitize_username u) ⟨1, t1⟩ := by
    simp [UserAuthenticator.auth_run, e1]
  have r2 : UserAuthenticator.auth_run hash users u a0 [(t1, p1), (t2, p2)] =
      setAttempts a0 (FileManager.sanitize_username u) ⟨2, t2⟩ := by
    simp [UserAuthenticator.auth_run, e1, e2]
  have r3 : UserAuthenticator.auth_run hash users u a0
      [(t1, p1), (t2, p2), (t3, p3)] =
      setAttempts a0 (FileManager.sanitize_username u) ⟨3, t3⟩ := by
    simp [UserAuthenticator.auth_run, e1, e2, e3]
  have r4 : UserAuthenticator.auth_run hash users u a0
      [(t1, p1), (t2, p2), (t3, p3), (t4, p4)] =
      setAttempts a0 (FileManager.sanitize_username u) ⟨4, t4⟩ := by
    simp [UserAuthenticator.auth_run, e1, e2, e3, e4]
  have r5 : UserAuthenticator.auth_run hash users u a0
      [(t1, p1), (t2, p2), (t3, p3), (t4, p4), (t5, p5)] =
      setAttempts a0 (FileManager.sanitize_username u) ⟨5, t5⟩ := by
    simp [UserAuthenticator.auth_run, e1, e2, e3, e4, e5]
  refine ⟨rfl, by rw [e1], by rw [r1, e2], by rw [r2, e3], by rw [r3, e4],
    by rw [r4, e5], ?_, ?_, ?_⟩
  · rw [r5, setAttempts_read]
    rfl
  · intro hin
    rw [r5, authenticate_locked_out hash users _ t6 u pw
      (by rw [setAttempts_read]; norm_num [SecurityConfig.MAX_LOGIN_ATTEMPTS])
      (by rw [setAttempts_read]; exact hin)]
    rw [setAttempts_read]
  · intro hout
    rw [r5, authenticate_lockout_expired hash users _ t6 u pw ud hu hok
      (by rw [setAttempts_read]; norm_num [SecurityConfig.MAX_LOGIN_ATTEMPTS])
      (by rw [setAttempts_read]; exact hout)]
    exact ⟨rfl, by simp [setAttempts_collapse, setAttempts_read]⟩

/-- Witness for C6: with credentials `alice`/`pw` (hash modelled as
concatenation with the salt), five wrong attempts at times 1..5 lock the
account, and the correct password at time 6 is refused with 299 seconds of
lockout remaining. -/
theorem authenticate_lockout_spec_witness :
    (UserAuthenticator.authenticate_user (fun p s => p ++ s)
      (fun n => if n = "alice" then some ⟨"pwsalt", "salt"⟩ else none)
      (UserAuthenticator.auth_run (fun p s => p ++ s)
        (fun n => if n = "alice" then some ⟨"pwsalt", "salt"⟩ else none)
        "alice" (fun _ => ⟨0, 0⟩)
        [(1, "x"), (2, "x"), (3, "x"), (4, "x"), (5, "x")]) 6 "alice" "pw").1 =
      AuthResult.locked (SecurityConfig.LOCKOUT_DURATION - (6 - 5)) := by
  have h := authenticate_lockout_spec (fun p s => p ++ s)
    (fun n => if n = "alice" then some ⟨"pwsalt", "salt"⟩ else none)
    (fun _ => ⟨0, 0⟩) "alice" "pw" "x" "x" "x" "x" "x" 1 2 3 4 5 6
    ⟨"pwsalt", "salt"⟩ (by decide) rfl (by decide) (by decide) (by decide)
    (by decide) (by decide) (by decide)
  exact h.2.2.2.2.2.2.2.1 (by norm_num [SecurityConfig.LOCKOUT_DURATION])

lemma unknown_step_norm (hash : String → String → String) (users : Users)
    (a0 : AttemptsData) (u p : String)
    (hu : users (FileManager.sanitize_username u) = none) (i : Nat)
    (hi : i < SecurityConfig.MAX_LOGIN_ATTEMPTS) (t tprev : ℚ) :
    UserAuthenticator.authenticate_user hash users
      (setAttempts a0 (FileManager.sanitize_username u) ⟨i, tprev⟩) t u p =
      (AuthResult.invalidCredentials,
        setAttempts a0 (FileManager.sanitize_username u) ⟨i + 1, t⟩) := by
  rw [authenticate_unknown_user hash users _ t u p hu
    (by rw [setAttempts_read]; exact hi)]
  rw [setAttempts_read, setAttempts_collapse]

/-- C10: a username with no credential record is tracked too — each
`authenticate_user` call fails with invalid credentials and increments the
sanitized username's failed-attempt counter, so after five such calls the
next call (within the lockout window of the fifth) is refused with the
account-locked outcome rather than invalid credentials. -/
theorem authenticate_unknown_user_lockout_spec (hash : String → String → String)
    (users : Users) (a0 : AttemptsData) (u p1 p2 p3 p4 p5 p6 : String)
    (t1 t2 t3 t4 t5 t6 : ℚ)
    (hu : users (FileManager.sanitize_username u) = none)
    (h0 : (a0 (FileManager.sanitize_username u)).failed_attempts = 0) :
    (UserAuthenticator.authenticate_user hash users a0 t1 u p1).1 =
      AuthResult.invalidCredentials ∧
    ((UserAuthenticator.auth_run hash users u a0 [(t1, p1)])
      (FileManager.sanitize_username u)).failed_attempts = 1 ∧
    (UserAuthenticator.authenticate_user hash users
      (UserAuthenticator.auth_run hash users u a0 [(t1, p1)]) t2 u p2).1 =
      AuthResult.invalidCredentials ∧
    ((UserAuthenticator.auth_run hash users u a0 [(t1, p1), (t2, p2)])
      (FileManager.sanitize_username u)).failed_attempts = 2 ∧
    (UserAuthenticator.authenticate_user hash users
      (UserAuthenticator.auth_run hash users u a0 [(t1, p1), (t2, p2)])
      t3 u p3).1 = AuthResult.invalidCredentials ∧
    ((UserAuthenticator.auth_run hash users u a0 [(t1, p1), (t2, p2), (t3, p3)])
      (FileManager.sanitize_username u)).failed_attempts = 3 ∧
    (UserAuthenticator.authenticate_user hash users
      (UserAuthenticator.auth_run hash users u a0 [(t1, p1), (t2, p2), (t3, p3)])
      t4 u p4).1 = AuthResult.invalidCredentials ∧
    ((UserAuthenticator.auth_run hash users u a0
        [(t1, p1), (t2, p2), (t3, p3), (t4, p4)])
      (FileManager.sanitize_username u)).failed_attempts = 4 ∧
    (UserAuthenticator.authenticate_user hash users
      (UserAuthenticator.auth_run hash users u a0
        [(t1, p1), (t2, p2), (t3, p3), (t4, p4)]) t5 u p5).1 =
      AuthResult.invalidCredentials ∧
    ((UserAuthenticator.auth_run hash users u a0
        [(t1, p1), (t2, p2), (t3, p3), (t4, p4), (t5, p5)])
      (FileManager.sanitize_username u)).failed_attempts =
      SecurityConfig.MAX_LOGIN_ATTEMPTS ∧
    (¬ SecurityConfig.LOCKOUT_DURATION < t6 - t5 →
      (UserAuthenticator.authenticate_user hash users
        (UserAuthenticator.auth_run hash users u a0
          [(t1, p1), (t2, p2), (t3, p3), (t4, p4), (t5, p5)]) t6 u p6).1 =
        AuthResult.locked (SecurityConfig.LOCKOUT_DURATION - (t6 - t5))) := by
  have e1 : UserAuthenticator.authenticate_user hash users a0 t1 u p1 =
      (AuthResult.invalidCredentials,
        setAttempts a0 (FileManager.sanitize_username u) ⟨1, t1⟩) := by
    rw [authenticate_unknown_user hash users a0 t1 u p1 hu
      (by rw [h0]; norm_num [SecurityConfig.MAX_LOGIN_ATTEMPTS]), h0]
  have e2 := unknown_step_norm hash users a0 u p2 hu 1
    (by norm_num [SecurityConfig.MAX_LOGIN_ATTEMPTS]) t2 t1
  have e3 := unknown_step_norm hash users a0 u p3 hu 2
    (by norm_num [SecurityConfig.MAX_LOGIN_ATTEMPTS]) t3 t2
  have e4 := unknown_step_norm hash users a0 u p4 hu 3
    (by norm_num [SecurityConfig.MAX_LOGIN_ATTEMPTS]) t4 t3
  have e5 := unknown_step_norm hash users a0 u p5 hu 4
    (by norm_num [SecurityConfig.MAX_LOGIN_ATTEMPTS]) t5 t4
  have r1 : UserAuthenticator.auth_run hash users u a0 [(t1, p1)] =
      setAttempts a0 (FileManager.sanitize_username u) ⟨1, t1⟩ := by
    simp [UserAuthenticator.auth_run, e1]
  have r2 : UserAuthenticator.auth_run hash users u a0 [(t1, p1), (t2, p2)] =
      setAttempts a0 (FileManager.sanitize_username u) ⟨2, t2⟩ := by
    simp [UserAuthenticator.auth_run, e1, e2]
  have r3 : UserAuthenticator.auth_run hash users u a0
      [(t1, p1), (t2, p2), (t3, p3)] =
      setAttempts a0 (FileManager.sanitize_username u) ⟨3, t3⟩ := by
    simp [UserAuthenticator.auth_run, e1, e2, e3]
  have r4 : UserAuthenticator.auth_run hash users u a0
      [(t1, p1), (t2, p2), (t3, p3), (t4, p4)] =
      setAttempts a0 (FileManager.sanitize_username u) ⟨4, t4⟩ := by
    simp [UserAuthenticator.auth_run, e1, e2, e3, e4]
  have r5 : UserAuthenticator.auth_run hash users u a0
      [(t1, p1), (t2, p2), (t3, p3), (t4, p4), (t5, p5)] =
      setAttempts a0 (FileManager.sanitize_username u) ⟨5, t5⟩ := by
    simp [UserAuthenticator.auth_run, e1, e2, e3, e4, e5]
  refine ⟨by rw [e1], by rw [r1, setAttempts_read], by rw [r1, e2],
    by rw [r2, setAttempts_read], by rw [r2, e3], by rw [r3, setAttempts_read],
    by rw [r3, e4], by rw [r4, setAttempts_read], by rw [r4, e5], ?_, ?_⟩
  · rw [r5, setAttempts_read]
    rfl
  · intro hin
    rw [r5, authenticate_locked_out hash users _ t6 u p6
      (by rw [setAttempts_read]; norm_num [SecurityConfig.MAX_LOGIN_ATTEMPTS])
      (by rw [setAttempts_read]; exact hin)]
    rw [setAttempts_read]

/-- Witness for C10: an unregistered username `ghost` is locked out by five
failed attempts; a sixth attempt at time 6 is refused with 299 seconds
remaining. -/
theorem authenticate_unknown_user_lockout_spec_witness :
    (UserAuthenticator.authenticate_user (fun p s => p ++ s) (fun _ => none)
      (UserAuthenticator.auth_run (fun p s => p ++ s) (fun _ => none)
        "ghost" (fun _ => ⟨0, 0⟩)
        [(1, "a"), (2, "b"), (3, "c"), (4, "d"), (5, "e")]) 6 "ghost" "f").1 =
      AuthResult.locked (SecurityConfig.LOCKOUT_DURATION - (6 - 5)) := by
  have h := authenticate_unknown_user_lockout_spec (fun p s => p ++ s)
    (fun _ => none) (fun _ => ⟨0, 0⟩) "ghost" "a" "b" "c" "d" "e" "f"
    1 2 3 4 5 6 rfl rfl
  exact h.2.2.2.2.2.2.2.2.2.2 (by norm_num [SecurityConfig.LOCKOUT_DURATION])

/-- The number of the four character classes (uppercase, lowercase, digit,
special) present in a password. -/
def num_char_classes (password : String) : Nat :=
  (if password.toList.any Char.isUpper then 1 else 0) +
  (if password.toList.any Char.isLower then 1 else 0) +
  (if password.toList.any Char.isDigit then 1 else 0) +
  (if password.toList.any is_special_char then 1 else 0)

/-- C8: the strength check accepts exactly the passwords of length ≥ 8 with
at least three of the four character classes; with a valid username,
`register_user` fails with the weak-password message exactly when the
strength check fails, and otherwise proceeds to the duplicate-username check
or succeeds. -/
theorem register_password_strength_spec (users : Users) (u p : String)
    (hu_clean : FileManager.sanitize_username u = u)
    (hu_len : 3 ≤ u.toList.length) :
    ((PasswordManager.validate_password_strength p).1 = true ↔
      (SecurityConfig.MIN_PASSWORD_LENGTH ≤ p.toList.length ∧
        3 ≤ num_char_classes p)) ∧
    ((PasswordManager.validate_password_strength p).1 = false →
      UserAuthenticator.register_user users u p =
        (false, (PasswordManager.validate_password_strength p).2)) ∧
    ((PasswordManager.validate_password_strength p).1 = true →
      UserAuthenticator.register_user users u p =
        (false, "Username già esistente") ∨
      UserAuthenticator.register_user users u p =
        (true, "Utente registrato con successo")) := by
  have hreg : UserAuthenticator.register_user users u p =
      (if (PasswordManager.validate_password_strength p).1 = false then
        (false, (PasswordManager.validate_password_strength p).2)
      else if (users u).isSome then (false, "Username già esistente")
      else (true, "Utente registrato con successo")) := by
    unfold UserAuthenticator.register_user
    rw [hu_clean, if_neg (by omega), if_neg (by simp)]
  refine ⟨?_, ?_, ?_⟩
  · by_cases hlen : p.toList.length < SecurityConfig.MIN_PASSWORD_LENGTH
    · simp only [PasswordManager.validate_password_strength, if_pos hlen]
      simp only [SecurityConfig.MIN_PASSWORD_LENGTH] at hlen ⊢
      constructor
      · intro habs
        exact absurd habs (by simp)
      · intro h
        omega
    · by_cases h1 : p.toList.any Char.isUpper <;>
        by_cases h2 : p.toList.any Char.isLower <;>
        by_cases h3 : p.toList.any Char.isDigit <;>
        by_cases h4 : p.toList.any is_special_char <;>
        simp only [PasswordManager.validate_password_strength, num_char_classes,
          if_neg hlen, h1, h2, h3, h4, if_true, if_false,
          SecurityConfig.MIN_PASSWORD_LENGTH] <;>
        simp_all [SecurityConfig.MIN_PASSWORD_LENGTH] <;>
        rw [if_neg (by omega)]
  · intro hv
    rw [hreg, if_pos hv]
  · intro hv
    rw [hreg, if_neg (by simp [hv])]
    by_cases hex : (users u).isSome
    · exact Or.inl (by rw [if_pos hex])
    · exact Or.inr (by rw [if_neg hex])

/-- Witness for C8: `Password1` (length 9; uppercase, lowercase and digit
present) passes the strength check, so registering a fresh valid username
with it succeeds. -/
theorem register_password_strength_spec_witness :
    UserAuthenticator.register_user (fun _ => none) "alice" "Password1" =
      (true, "Utente registrato con successo") := by
  have h := register_password_strength_spec (fun _ => none) "alice" "Password1"
    (by decide) (by decide)
  rcases h.2.2 (by decide) with h1 | h1
  · exact absurd h1 (by decide)
  · exact h1
